import Mathlib

/-!
# Questionnaire template/instance synchronization engine — verification

Shallow embedding of the questionnaire merge/sync core of `server/app.js`
(and the `Project` / `QuestionnaireTemplate` mongoose schemas) of the
react-management-system repository, together with proofs about it.

Modelling conventions:
* Mongo ObjectIds are modelled as `Nat`; two ids are equal iff their string
  renderings are equal, so `String(x) === String(y)` on ids is `Nat` equality.
* A field that may be absent (`sourceQuestionId`, a subdocument `_id` not yet
  assigned, an optional request-body field) is an `Option`; JavaScript
  truthiness of such a field is `Option.isSome` (ids are never falsy strings).
* JavaScript string truthiness (only `""` is falsy) is modelled by `jsOrStr`.
* A JavaScript `Map` built from a list of key/value pairs, read with `.get`,
  is `jsMapGet`: the *last* pair with a given key wins.
* The mongoose document mutations of the route handlers are modelled as pure
  functions from the old document value to the new one.
-/

namespace QSync

/-- JavaScript `x || d` for an optional string field `x`
(`undefined`, `null` and `""` are falsy). -/
def jsOrStr (x : Option String) (d : String) : String :=
  match x with
  | some s => if s = "" then d else s
  | none => d

/-- JavaScript `a || b` where `a`, `b` are optional ids
(an id string is always truthy when present). -/
def jsOrId (a b : Option Nat) : Option Nat :=
  match a with
  | some x => some x
  | none => b

/-- `new Map(pairs).get(k)`: the value of the **last** pair whose key equals
`k`, or `undefined` (`none`) when there is none. -/
def jsMapGet {κ α : Type} [BEq κ] (pairs : List (κ × α)) (k : κ) : Option α :=
  (pairs.reverse.find? (fun p => p.1 == k)).map Prod.snd

/-! ## Data model (`models/QuestionnaireTemplate.js`, `models/Project.js`) -/

/-- Template question option (`QuestionOptionSchema`): always has a Mongo
`_id`; `imageUrl` may be absent on `.lean()` documents. -/
structure TOption where
  _id : Nat
  text : String
  imageUrl : Option String
deriving DecidableEq, Repr

/-- Template question (`QuestionSchema`). -/
structure TQuestion where
  _id : Nat
  text : String
  multiple : Bool
  options : List TOption
deriving DecidableEq, Repr

/-- Questionnaire template document (top level of
`QuestionnaireTemplateSchema`; `description`/`roomType` are optional). -/
structure TemplateDoc where
  _id : Nat
  title : String
  description : Option String
  roomType : Option String
  questions : List TQuestion
deriving DecidableEq, Repr

/-- Instance question option (inside `ProjectQuestionnaireSchema.questions`):
`oid` is the subdocument `_id` (absent on freshly merged plain objects before
a save), `sourceOptionId` is absent for project-only options. -/
structure IOption where
  oid : Option Nat
  sourceOptionId : Option Nat
  text : String
  imageUrl : String
deriving DecidableEq, Repr

/-- Instance question: `qid` is the subdocument `_id`,
`sourceQuestionId` is absent for project-only questions. -/
structure IQuestion where
  qid : Option Nat
  sourceQuestionId : Option Nat
  text : String
  multiple : Bool
  options : List IOption
deriving DecidableEq, Repr

/-- One persisted selected option inside an answer
(`QuestionnaireAnswerSchema.selectedOptions`). -/
structure SelectedOption where
  optionId : String
  name : String
  imageUrl : String
deriving DecidableEq, Repr

/-- One persisted answer (`QuestionnaireAnswerSchema`). -/
structure AnswerRec where
  questionId : String
  questionText : String
  selectedOptions : List SelectedOption
  freeText : String
deriving DecidableEq, Repr

/-- A project questionnaire instance (`ProjectQuestionnaireSchema`). -/
structure Instance where
  templateId : Nat
  title : String
  description : String
  roomType : String
  questions : List IQuestion
  answers : List AnswerRec
  isCustomized : Bool
  syncedAt : Option Nat
deriving DecidableEq, Repr, Inhabited

/-! ## Merge helpers (`server/app.js` lines 786–912)

Both merge functions create fresh instance questions/options from template
items with identical code; `freshInstanceOption` / `freshInstanceQuestion`
embed that shared shape (a plain object: no `_id` yet). -/

/-- `{ sourceOptionId: tOpt._id, text: tOpt.text, imageUrl: tOpt.imageUrl || "" }`. -/
def freshInstanceOption (tOpt : TOption) : IOption :=
  { oid := none
    sourceOptionId := some tOpt._id
    text := tOpt.text
    imageUrl := jsOrStr tOpt.imageUrl "" }

/-- Fresh instance question copied from a template question (the `!existingQ`
branch of both merge functions). -/
def freshInstanceQuestion (tq : TQuestion) : IQuestion :=
  { qid := none
    sourceQuestionId := some tq._id
    text := tq.text
    multiple := tq.multiple
    options := tq.options.map freshInstanceOption }

/-! ### `mergeInstanceQuestionsKeepingIds` (assign/update path, lines 786–840) -/

/-- The `existingBySource` map of `mergeInstanceQuestionsKeepingIds`:
key `String(q.sourceQuestionId || q._id)` (key `none` models `"undefined"`). -/
def assignLookup (existingQuestions : List IQuestion) (k : Nat) : Option IQuestion :=
  jsMapGet (existingQuestions.map (fun q => (jsOrId q.sourceQuestionId q.qid, q))) (some k)

/-- The `existingOptionsBySource` map of the assign merge. -/
def assignOptLookup (existingOptions : List IOption) (k : Nat) : Option IOption :=
  jsMapGet (existingOptions.map (fun o => (jsOrId o.sourceOptionId o.oid, o))) (some k)

/-- Merged option for a matched existing option in the assign merge:
spread of `existingO`, then `sourceOptionId`/`text`/`imageUrl` overwritten. -/
def assignMergeOption (existingOptions : List IOption) (tOpt : TOption) : IOption :=
  match assignOptLookup existingOptions tOpt._id with
  | none => freshInstanceOption tOpt
  | some existingO =>
    { existingO with
      sourceOptionId := jsOrId existingO.sourceOptionId (some tOpt._id)
      text := tOpt.text
      imageUrl := jsOrStr tOpt.imageUrl "" }

/-- Body of the `templateQuestions.map` of `mergeInstanceQuestionsKeepingIds`. -/
def assignMergeQuestion (existingQuestions : List IQuestion) (tq : TQuestion) : IQuestion :=
  match assignLookup existingQuestions tq._id with
  | none => freshInstanceQuestion tq
  | some existingQ =>
    { existingQ with
      sourceQuestionId := jsOrId existingQ.sourceQuestionId (some tq._id)
      text := tq.text
      multiple := tq.multiple
      options := tq.options.map (assignMergeOption existingQ.options) }

/-- `mergeInstanceQuestionsKeepingIds(existingQuestions, templateQuestions)`
(lines 786–840): one output per template question, nothing else kept. -/
def mergeInstanceQuestionsKeepingIds
    (existingQuestions : List IQuestion) (templateQuestions : List TQuestion) :
    List IQuestion :=
  templateQuestions.map (assignMergeQuestion existingQuestions)

/-! ### `mergeTemplateIntoInstanceKeepProjectOnly` (sync path, lines 849–912) -/

/-- The `existingBySource` map of the sync merge: only questions with a
`sourceQuestionId`, keyed by it. -/
def syncLookup (existingQuestions : List IQuestion) (k : Nat) : Option IQuestion :=
  jsMapGet (existingQuestions.filterMap (fun q => q.sourceQuestionId.map (fun s => (s, q)))) k

/-- The `existingOptionsBySource` map of the sync merge: only options with a
`sourceOptionId`, keyed by it. -/
def syncOptLookup (existingOptions : List IOption) (k : Nat) : Option IOption :=
  jsMapGet (existingOptions.filterMap (fun o => o.sourceOptionId.map (fun s => (s, o)))) k

/-- Merged option for one template option in the sync merge. -/
def syncMergeOption (existingOptions : List IOption) (tOpt : TOption) : IOption :=
  match syncOptLookup existingOptions tOpt._id with
  | none => freshInstanceOption tOpt
  | some existingO =>
    { existingO with
      sourceOptionId := jsOrId existingO.sourceOptionId (some tOpt._id)
      text := tOpt.text
      imageUrl := jsOrStr tOpt.imageUrl "" }

/-- Merged question for a matched existing question in the sync merge:
template-derived options first, then the project-only options unchanged. -/
def syncMergeMatched (existingQ : IQuestion) (tq : TQuestion) : IQuestion :=
  { existingQ with
    sourceQuestionId := jsOrId existingQ.sourceQuestionId (some tq._id)
    text := tq.text
    multiple := tq.multiple
    options := tq.options.map (syncMergeOption existingQ.options)
      ++ existingQ.options.filter (fun o => o.sourceOptionId.isNone) }

/-- Body of the `templateQuestions.map` of the sync merge. -/
def syncMergeQuestion (existingQuestions : List IQuestion) (tq : TQuestion) : IQuestion :=
  match syncLookup existingQuestions tq._id with
  | none => freshInstanceQuestion tq
  | some existingQ => syncMergeMatched existingQ tq

/-- `mergeTemplateIntoInstanceKeepProjectOnly(existingQuestions, templateQuestions)`
(lines 849–912): template-derived questions first, then the project-only
questions (no `sourceQuestionId`) unchanged. -/
def mergeTemplateIntoInstanceKeepProjectOnly
    (existingQuestions : List IQuestion) (templateQuestions : List TQuestion) :
    List IQuestion :=
  templateQuestions.map (syncMergeQuestion existingQuestions)
    ++ existingQuestions.filter (fun q => q.sourceQuestionId.isNone)

/-! ## Sync orchestrator
(`POST /api/questionnaires/templates/:templateId/sync-projects`, lines 1237–1309) -/

/-- Sync mode: `req.body?.mode === "force" ? "force" : "safe"`. -/
inductive SyncMode where
  | safe
  | force
deriving DecidableEq, Repr

/-- The per-instance update of the sync loop body (lines 1272–1286): title,
description, roomType, merged questions and `syncedAt` are written; in force
mode `isCustomized` is reset to `false`, otherwise it is left alone. -/
def applySync (mode : SyncMode) (t : TemplateDoc) (now : Nat) (inst : Instance) : Instance :=
  { inst with
    title := t.title
    description := jsOrStr t.description ""
    roomType := jsOrStr t.roomType ""
    questions := mergeTemplateIntoInstanceKeepProjectOnly inst.questions t.questions
    syncedAt := some now
    isCustomized := if mode = SyncMode.force then false else inst.isCustomized }

/-- The inner `for (const inst of project.designQuestionnaires)` loop of the
sync endpoint, over one project's instance list: returns the new instance
list, the number of `skippedCustomized` increments contributed by this
project, and the project's `changed` flag. -/
def syncInstances (mode : SyncMode) (t : TemplateDoc) (now : Nat) :
    List Instance → List Instance × Nat × Bool
  | [] => ([], 0, false)
  | inst :: rest =>
    let r := syncInstances mode t now rest
    if inst.templateId = t._id then
      if mode = SyncMode.safe ∧ inst.isCustomized then
        (inst :: r.1, r.2.1 + 1, r.2.2)
      else
        (applySync mode t now inst :: r.1, r.2.1, true)
    else
      (inst :: r.1, r.2.1, r.2.2)

/-! ## Assign endpoint (`POST /api/projects/:id/questionnaire/assign`,
lines 923–998) -/

/-- The fresh instance pushed when the project has no instance of the
template yet (lines 953–972). -/
def materializeInstance (t : TemplateDoc) (now : Nat) : Instance :=
  { templateId := t._id
    title := t.title
    description := jsOrStr t.description ""
    roomType := jsOrStr t.roomType ""
    questions := t.questions.map (fun q =>
      { qid := none
        sourceQuestionId := some q._id
        text := q.text
        multiple := q.multiple
        options := q.options.map (fun opt =>
          { oid := none
            sourceOptionId := some opt._id
            text := opt.text
            imageUrl := jsOrStr opt.imageUrl "" }) })
    answers := []
    isCustomized := false
    syncedAt := some now }

/-- The update of an existing instance on re-assign (lines 978–988):
`answers` and `isCustomized` are not written. -/
def assignUpdateInstance (t : TemplateDoc) (now : Nat) (inst : Instance) : Instance :=
  { inst with
    title := t.title
    description := jsOrStr t.description ""
    roomType := jsOrStr t.roomType ""
    questions := mergeInstanceQuestionsKeepingIds inst.questions t.questions
    syncedAt := some now }

/-- Outcome of the assign endpoint after the project was found:
either a 404 for a missing template, or the new `designQuestionnaires`
array returned with the project as success. -/
inductive AssignResult where
  | templateNotFound
  | success (insts : List Instance)
deriving DecidableEq, Repr

/-- `POST /api/projects/:id/questionnaire/assign` core (lines 929–992),
as a function of the project's current `designQuestionnaires`, the request's
`templateId` (`none` = falsy), and the template the store returns for it.
A falsy `templateId` clears the whole array and succeeds before the template
is even looked up; otherwise the *first* instance with this `templateId` is
updated in place, or a fresh instance is appended. -/
def assignQuestionnaire (insts : List Instance) (templateId : Option Nat)
    (storedTemplate : Option TemplateDoc) (now : Nat) : AssignResult :=
  match templateId with
  | none => AssignResult.success []
  | some _ =>
    match storedTemplate with
    | none => AssignResult.templateNotFound
    | some template =>
      match insts.findIdx? (fun q => q.templateId = template._id) with
      | none => AssignResult.success (insts ++ [materializeInstance template now])
      | some k =>
        AssignResult.success
          (insts.set k (assignUpdateInstance template now (insts.getD k default)))

/-! ## Answers endpoint (`POST /api/projects/:id/questionnaire/answers`,
lines 1004–1058) -/

/-- A submitted selected option as it arrives in the request body
(every field may be absent). -/
structure RawSelected where
  optionId : Option String
  name : Option String
  optionText : Option String
  imageUrl : Option String
deriving DecidableEq, Repr

/-- A submitted answer as it arrives in the request body; `selectedOptions`
is `some` exactly when `Array.isArray(a.selectedOptions)` holds. -/
structure RawAnswer where
  questionId : Option String
  questionText : Option String
  selectedOptions : Option (List RawSelected)
  freeText : Option String
deriving DecidableEq, Repr

/-- Truthiness of an optional string (`undefined`/`""` falsy). -/
def strTruthy (x : Option String) : Bool :=
  match x with
  | some s => s ≠ ""
  | none => false

/-- The filter of the answers endpoint (lines 1030–1035):
`a && (a.freeText || (Array.isArray(a.selectedOptions) && a.selectedOptions.length > 0))`. -/
def keepAnswer (a : RawAnswer) : Bool :=
  strTruthy a.freeText ||
    (match a.selectedOptions with
     | some l => decide (0 < l.length)
     | none => false)

/-- Normalization of one submitted selected option (lines 1040–1044). -/
def normalizeSelected (o : RawSelected) : SelectedOption :=
  { optionId := jsOrStr o.optionId ""
    name := jsOrStr o.name (jsOrStr o.optionText "")
    imageUrl := jsOrStr o.imageUrl "" }

/-- Normalization of one kept submitted answer (lines 1036–1047). -/
def normalizeAnswer (a : RawAnswer) : AnswerRec :=
  { questionId := jsOrStr a.questionId ""
    questionText := jsOrStr a.questionText ""
    selectedOptions :=
      match a.selectedOptions with
      | some l => l.map normalizeSelected
      | none => []
    freeText := jsOrStr a.freeText "" }

/-- The `safeAnswers.filter(...).map(...)` pipeline that becomes
`instance.answers` (lines 1029–1047); a list element that is not an object
(`a` falsy) is modelled as `none` and dropped by the filter. -/
def processAnswers (raw : List (Option RawAnswer)) : List AnswerRec :=
  raw.filterMap (fun a? =>
    a?.bind (fun a => if keepAnswer a then some (normalizeAnswer a) else none))

/-- The option ids of a submitted answer's selections, normalized the same
way the endpoint normalizes them (`String(opt.optionId || "")`). -/
def submittedSelIds (a : RawAnswer) : List String :=
  match a.selectedOptions with
  | some l => l.map (fun o => jsOrStr o.optionId "")
  | none => []

/-- Index of the instance answers are written to (lines 1023–1025):
the first instance whose `templateId` matches, else index 0. -/
def answersTargetIdx (insts : List Instance) (templateId : Option Nat) : Nat :=
  (insts.findIdx? (fun q =>
    match templateId with
    | some tid => q.templateId = tid
    | none => false)).getD 0

/-- `POST /api/projects/:id/questionnaire/answers` core (lines 1019–1052):
`none` models the 400 response when the project has no questionnaires;
otherwise the target instance's whole `answers` array is replaced. -/
def saveProjectAnswers (insts : List Instance) (templateId : Option Nat)
    (raw : List (Option RawAnswer)) : Option (List Instance) :=
  if insts.isEmpty then none
  else
    let k := answersTargetIdx insts templateId
    some (insts.set k { insts.getD k default with answers := processAnswers raw })

/-! ## Direct project edit
(`PUT /api/projects/:projectId/questionnaires/:instanceId`, lines 1111–1145) -/

/-- The per-instance update of the direct-edit endpoint: each body field is
written only when present (`!== undefined`), and `isCustomized` is
unconditionally set to `true`. -/
def editInstanceDirectly (inst : Instance) (title description roomType : Option String)
    (questions : Option (List IQuestion)) : Instance :=
  { inst with
    title := title.getD inst.title
    description := description.getD inst.description
    roomType := roomType.getD inst.roomType
    questions := questions.getD inst.questions
    isCustomized := true }

/-! ## Concrete documents used as test inputs -/

/-- A template-sourced instance question with one template-sourced option and
one project-only option. -/
def qMatchedW1 : IQuestion :=
  ⟨some 100, some 1, "Style?", true,
    [⟨some 107, some 7, "Modern", ""⟩, ⟨some 110, none, "My own", ""⟩]⟩

/-- An instance with a matched question and a project-only question. -/
def existingW1 : List IQuestion :=
  [qMatchedW1, ⟨some 200, none, "Budget note?", false, []⟩]

/-- Template question 1 after an edit: renamed, option 9 added. -/
def tqW1 : TQuestion :=
  ⟨1, "Preferred Style?", true, [⟨7, "Modern", some ""⟩, ⟨9, "Industrial", none⟩]⟩

/-- Template question list for the sync-merge tests. -/
def templateW1 : List TQuestion := [tqW1]

/-- Existing questions for the idempotence counterexample: one question
sourced from template question 1, holding a stored option (subdocument id 99)
sourced from template option 7. -/
def existingC3 : List IQuestion :=
  [⟨some 42, some 1, "", false, [⟨some 99, some 7, "old", ""⟩]⟩]

/-- Template questions for the idempotence counterexample: two questions with
the *same* id 1 (the merge functions nowhere assume template ids unique);
the first carries option 7, the second has no options. -/
def templateC3 : List TQuestion :=
  [⟨1, "a", false, [⟨7, "x", none⟩]⟩, ⟨1, "b", false, []⟩]

/-- A single project-only question, input of the assign-merge witness. -/
def existingW4 : List IQuestion := [⟨some 300, none, "Extra note", false, []⟩]

/-- A template question unrelated to `existingW4`. -/
def templateW4 : List TQuestion := [⟨2, "New", true, []⟩]

/-- Two existing questions both claiming `sourceQuestionId = 1`
(the duplicate-source edge case of the tie-break policy). -/
def existingC5 : List IQuestion :=
  [⟨some 10, some 1, "first", false, []⟩, ⟨some 20, some 1, "second", false, []⟩]

/-- One template question with id 1, for the duplicate-source counterexample. -/
def templateC5 : List TQuestion := [⟨1, "T", false, []⟩]

/-- A project-only question used by the duplicate-policy witness. -/
def existingW5 : List IQuestion := [⟨some 400, none, "Only ours", true, []⟩]

/-- An instance whose single question has exactly one option, with
subdocument id 2 and source option id 21. -/
def instanceC6 : Instance :=
  { templateId := 5
    title := "Q"
    description := ""
    roomType := ""
    questions :=
      [⟨some 1, some 11, "Style?", false, [⟨some 2, some 21, "Modern", ""⟩]⟩]
    answers := []
    isCustomized := false
    syncedAt := none }

/-- A submitted answer selecting option id "999", which no option of
`instanceC6` carries. -/
def rawC6 : List (Option RawAnswer) :=
  [some ⟨some "1", some "Style?",
    some [⟨some "999", some "Ghost", none, none⟩], none⟩]

/-- A submitted answer with no free text and one selection. -/
def rawW6 : List (Option RawAnswer) :=
  [some ⟨some "q", none, some [⟨some "5", none, none, none⟩], none⟩]

/-- An uncustomized instance of template 9, for witnesses. -/
def instanceW7 : Instance :=
  { templateId := 9, title := "t", description := "", roomType := ""
    questions := [], answers := [⟨"a", "", [], "x"⟩], isCustomized := true
    syncedAt := none }

/-- A template with id 9 for the assign-update witness. -/
def templateDocW8 : TemplateDoc := ⟨9, "T9", none, none, []⟩

/-- An instance of template 3, target of the answers-fallback witness. -/
def instanceW10 : Instance :=
  { templateId := 3, title := "t3", description := "", roomType := ""
    questions := [], answers := [⟨"old", "", [], "keep?"⟩], isCustomized := false
    syncedAt := none }

/-! ## Lemmas about the JavaScript `Map` embedding -/

/-- A `Map` built from `(key x, val x)` pairs reads as a last-match search. -/
theorem jsMapGet_map_pairs {α β κ : Type} [BEq κ] (l : List α)
    (key : α → κ) (val : α → β) (k : κ) :
    jsMapGet (l.map (fun x => (key x, val x))) k
      = (l.reverse.find? (fun x => key x == k)).map val := by
  unfold jsMapGet
  rw [← List.map_reverse, List.find?_map, Option.map_map]
  rfl

/-- A `Map` built from the optional-key pairs pattern of the sync merge reads
as a last-match search on the optional key. -/
theorem jsMapGet_filterMap_pairs {α : Type} (l : List α) (f : α → Option Nat) (k : Nat) :
    jsMapGet (l.filterMap (fun x => (f x).map (fun s => (s, x)))) k
      = l.reverse.find? (fun x => f x == some k) := by
  unfold jsMapGet
  rw [← List.filterMap_reverse]
  generalize l.reverse = m
  induction m with
  | nil => rfl
  | cons x xs ih =>
    rw [List.filterMap_cons]
    cases hf : f x with
    | none =>
      simp only [hf, Option.map_none']
      rw [List.find?_cons_of_neg _ (by simp [hf])]
      exact ih
    | some s =>
      simp only [hf, Option.map_some']
      by_cases hs : s = k
      · rw [List.find?_cons_of_pos _ (by simp [hs]),
          List.find?_cons_of_pos _ (by simp [hf, hs])]
        rfl
      · rw [List.find?_cons_of_neg _ (by simp [hs]),
          List.find?_cons_of_neg _ (by simp [hf, hs])]
        exact ih

theorem syncLookup_eq_findLast (E : List IQuestion) (k : Nat) :
    syncLookup E k = E.reverse.find? (fun q => q.sourceQuestionId == some k) :=
  jsMapGet_filterMap_pairs E (fun q => q.sourceQuestionId) k

theorem syncOptLookup_eq_findLast (os : List IOption) (k : Nat) :
    syncOptLookup os k = os.reverse.find? (fun o => o.sourceOptionId == some k) :=
  jsMapGet_filterMap_pairs os (fun o => o.sourceOptionId) k

/-- Special case of `jsMapGet_map_pairs` where the stored value is the list
element itself (the question/option maps of the assign merge). -/
theorem jsMapGet_pairs_self {α κ : Type} [BEq κ] (l : List α) (key : α → κ) (k : κ) :
    jsMapGet (l.map (fun x => (key x, x))) k
      = l.reverse.find? (fun x => key x == k) := by
  unfold jsMapGet
  rw [← List.map_reverse, List.find?_map, Option.map_map]
  show Option.map (fun x => x) _ = _
  rw [Option.map_id']
  rfl

theorem assignLookup_eq_findLast (E : List IQuestion) (k : Nat) :
    assignLookup E k
      = E.reverse.find? (fun q => jsOrId q.sourceQuestionId q.qid == some k) := by
  unfold assignLookup
  exact jsMapGet_pairs_self E (fun q => jsOrId q.sourceQuestionId q.qid) (some k)

theorem assignOptLookup_eq_findLast (os : List IOption) (k : Nat) :
    assignOptLookup os k
      = os.reverse.find? (fun o => jsOrId o.sourceOptionId o.oid == some k) := by
  unfold assignOptLookup
  exact jsMapGet_pairs_self os (fun o => jsOrId o.sourceOptionId o.oid) (some k)

/-- A question found by the sync lookup carries exactly the looked-up
`sourceQuestionId`. -/
theorem syncLookup_sid {E : List IQuestion} {k : Nat} {q : IQuestion}
    (h : syncLookup E k = some q) : q.sourceQuestionId = some k := by
  rw [syncLookup_eq_findLast] at h
  simpa using List.find?_some h

theorem syncLookup_mem {E : List IQuestion} {k : Nat} {q : IQuestion}
    (h : syncLookup E k = some q) : q ∈ E := by
  rw [syncLookup_eq_findLast] at h
  exact List.mem_reverse.mp (List.mem_of_find?_eq_some h)

theorem syncOptLookup_sid {os : List IOption} {k : Nat} {o : IOption}
    (h : syncOptLookup os k = some o) : o.sourceOptionId = some k := by
  rw [syncOptLookup_eq_findLast] at h
  simpa using List.find?_some h

theorem assignLookup_key {E : List IQuestion} {k : Nat} {q : IQuestion}
    (h : assignLookup E k = some q) : jsOrId q.sourceQuestionId q.qid = some k := by
  rw [assignLookup_eq_findLast] at h
  simpa using List.find?_some h

theorem assignOptLookup_key {os : List IOption} {k : Nat} {o : IOption}
    (h : assignOptLookup os k = some o) : jsOrId o.sourceOptionId o.oid = some k := by
  rw [assignOptLookup_eq_findLast] at h
  simpa using List.find?_some h

/-! ## Source ids of merged questions and options -/

theorem syncMergeOption_sid (os : List IOption) (tOpt : TOption) :
    (syncMergeOption os tOpt).sourceOptionId = some tOpt._id := by
  unfold syncMergeOption
  cases h : syncOptLookup os tOpt._id with
  | none => rfl
  | some o => simp [syncOptLookup_sid h, jsOrId]

theorem syncMergeQuestion_sid (E : List IQuestion) (tq : TQuestion) :
    (syncMergeQuestion E tq).sourceQuestionId = some tq._id := by
  unfold syncMergeQuestion
  cases h : syncLookup E tq._id with
  | none => rfl
  | some q => simp [syncMergeMatched, syncLookup_sid h, jsOrId]

theorem assignMergeOption_sid (os : List IOption) (tOpt : TOption) :
    (assignMergeOption os tOpt).sourceOptionId = some tOpt._id := by
  unfold assignMergeOption
  cases h : assignOptLookup os tOpt._id with
  | none => rfl
  | some o =>
    have hk := assignOptLookup_key h
    cases ho : o.sourceOptionId with
    | none => simp [jsOrId, ho]
    | some s =>
      rw [ho] at hk
      simp only [jsOrId] at hk
      simp [jsOrId, ho, hk]

theorem assignMergeQuestion_sid (E : List IQuestion) (tq : TQuestion) :
    (assignMergeQuestion E tq).sourceQuestionId = some tq._id := by
  unfold assignMergeQuestion
  cases h : assignLookup E tq._id with
  | none => rfl
  | some q =>
    have hk := assignLookup_key h
    cases hq : q.sourceQuestionId with
    | none => simp [jsOrId, hq]
    | some s =>
      rw [hq] at hk
      simp only [jsOrId] at hk
      simp [jsOrId, hq, hk]

/-! ## Idempotence machinery for the sync merge -/

theorem jsOrId_of_isSome {a b : Option Nat} {s : Nat} (h : a = some s) :
    jsOrId a b = a := by
  simp [jsOrId, h]

theorem jsOrId_idem (a : Option Nat) (c : Nat) :
    jsOrId (jsOrId a (some c)) (some c) = jsOrId a (some c) := by
  cases a <;> simp [jsOrId]

/-- Filtering the merged option list of a matched question for project-only
options recovers exactly the original project-only options. -/
theorem filter_isNone_mergedOptions (os : List IOption) (tq : TQuestion) :
    (tq.options.map (syncMergeOption os)
        ++ os.filter (fun o => o.sourceOptionId.isNone)).filter
          (fun o => o.sourceOptionId.isNone)
      = os.filter (fun o => o.sourceOptionId.isNone) := by
  rw [List.filter_append]
  have h1 : (tq.options.map (syncMergeOption os)).filter
      (fun o => o.sourceOptionId.isNone) = [] := by
    rw [List.filter_eq_nil_iff]
    intro o ho
    obtain ⟨tOpt, _, rfl⟩ := List.mem_map.mp ho
    simp [syncMergeOption_sid]
  rw [h1, List.filter_filter]
  simp

/-- The option lookup inside a merged matched question: it only ever finds a
template-derived merged option, keyed by the template option id. -/
theorem syncOptLookup_mergedOptions (os : List IOption) (tq : TQuestion) (k : Nat) :
    syncOptLookup (tq.options.map (syncMergeOption os)
        ++ os.filter (fun o => o.sourceOptionId.isNone)) k
      = (tq.options.reverse.find? (fun tOpt => tOpt._id == k)).map
          (syncMergeOption os) := by
  unfold syncOptLookup
  rw [List.filterMap_append]
  have h2 : (os.filter (fun o => o.sourceOptionId.isNone)).filterMap
      (fun o => o.sourceOptionId.map (fun s => (s, o))) = [] := by
    rw [List.filterMap_eq_nil_iff]
    intro o ho
    have := (List.mem_filter.mp ho).2
    simp only [Option.isNone_iff_eq_none] at this
    simp [this]
  rw [h2, List.append_nil, List.filterMap_map]
  have hcomp : ((fun o : IOption => o.sourceOptionId.map (fun s => (s, o)))
        ∘ (syncMergeOption os))
      = some ∘ (fun tOpt => (tOpt._id, syncMergeOption os tOpt)) := by
    funext tOpt
    simp [Function.comp, syncMergeOption_sid]
  rw [hcomp, List.filterMap_eq_map]
  exact jsMapGet_map_pairs tq.options (fun tOpt => tOpt._id)
    (syncMergeOption os) k

/-- Re-merging an already merged option against a template option with the
same id gives the merged option back. -/
theorem syncMergeOption_restamp (os : List IOption) {t1 t2 : TOption}
    (h : t1._id = t2._id) :
    { syncMergeOption os t1 with
      sourceOptionId := jsOrId (syncMergeOption os t1).sourceOptionId (some t2._id)
      text := t2.text
      imageUrl := jsOrStr t2.imageUrl "" } = syncMergeOption os t2 := by
  have hs := syncMergeOption_sid os t1
  rw [jsOrId_of_isSome hs, hs, h]
  unfold syncMergeOption
  rw [h]
  cases ho : syncOptLookup os t2._id with
  | none => simp [freshInstanceOption]
  | some o =>
    have hsid := syncOptLookup_sid ho
    simp [jsOrId, hsid]

/-- Re-merging the merged option list against the same template options
changes nothing. -/
theorem syncMergeOptions_idem_core (os : List IOption) (tq : TQuestion) :
    tq.options.map (syncMergeOption (tq.options.map (syncMergeOption os)
        ++ os.filter (fun o => o.sourceOptionId.isNone)))
      = tq.options.map (syncMergeOption os) := by
  apply List.map_congr_left
  intro tOpt hmem
  have hsome : (tq.options.reverse.find? (fun z => z._id == tOpt._id)).isSome := by
    rw [List.find?_isSome]
    exact ⟨tOpt, List.mem_reverse.mpr hmem, by simp⟩
  obtain ⟨t', ht'⟩ := Option.isSome_iff_exists.mp hsome
  have hid : t'._id = tOpt._id := by simpa using List.find?_some ht'
  conv_lhs => rw [syncMergeOption]
  rw [syncOptLookup_mergedOptions, ht', Option.map_some']
  exact syncMergeOption_restamp os hid

/-- Merging a matched question twice against the same template question is
the same as merging it once. -/
theorem syncMergeMatched_idem (q : IQuestion) (tq : TQuestion) :
    syncMergeMatched (syncMergeMatched q tq) tq = syncMergeMatched q tq := by
  obtain ⟨qid0, sid0, text0, mult0, opts0⟩ := q
  simp only [syncMergeMatched]
  rw [jsOrId_idem, syncMergeOptions_idem_core, filter_isNone_mergedOptions]

/-- Every output of `syncMergeQuestion` is a matched merge against some
question (the fresh branch coincides with merging an empty question). -/
theorem syncMergeQuestion_eq_matched (E : List IQuestion) (tq : TQuestion) :
    ∃ q, syncMergeQuestion E tq = syncMergeMatched q tq := by
  unfold syncMergeQuestion
  cases h : syncLookup E tq._id with
  | some q => exact ⟨q, rfl⟩
  | none =>
    refine ⟨⟨none, none, tq.text, tq.multiple, []⟩, ?_⟩
    unfold syncMergeMatched freshInstanceQuestion
    have : syncMergeOption ([] : List IOption) = freshInstanceOption := by
      funext tOpt
      rfl
    simp [jsOrId, this]

theorem syncMergeQuestion_fix (E : List IQuestion) (tq : TQuestion) :
    syncMergeMatched (syncMergeQuestion E tq) tq = syncMergeQuestion E tq := by
  obtain ⟨q, hq⟩ := syncMergeQuestion_eq_matched E tq
  rw [hq, syncMergeMatched_idem]

/-- Project-only questions of a merged instance are the original ones. -/
theorem filter_isNone_merged (E : List IQuestion) (T : List TQuestion) :
    (mergeTemplateIntoInstanceKeepProjectOnly E T).filter
        (fun q => q.sourceQuestionId.isNone)
      = E.filter (fun q => q.sourceQuestionId.isNone) := by
  unfold mergeTemplateIntoInstanceKeepProjectOnly
  rw [List.filter_append]
  have h1 : (T.map (syncMergeQuestion E)).filter
      (fun q => q.sourceQuestionId.isNone) = [] := by
    rw [List.filter_eq_nil_iff]
    intro q hq
    obtain ⟨tq, _, rfl⟩ := List.mem_map.mp hq
    simp [syncMergeQuestion_sid]
  rw [h1, List.filter_filter]
  simp

/-- The question lookup inside a merged instance finds template-derived
merged questions, keyed by template question id. -/
theorem syncLookup_merged (E : List IQuestion) (T : List TQuestion) (k : Nat) :
    syncLookup (mergeTemplateIntoInstanceKeepProjectOnly E T) k
      = (T.reverse.find? (fun tq => tq._id == k)).map (syncMergeQuestion E) := by
  unfold mergeTemplateIntoInstanceKeepProjectOnly syncLookup
  rw [List.filterMap_append]
  have h2 : (E.filter (fun q => q.sourceQuestionId.isNone)).filterMap
      (fun q => q.sourceQuestionId.map (fun s => (s, q))) = [] := by
    rw [List.filterMap_eq_nil_iff]
    intro q hq
    have := (List.mem_filter.mp hq).2
    simp only [Option.isNone_iff_eq_none] at this
    simp [this]
  rw [h2, List.append_nil, List.filterMap_map]
  have hcomp : ((fun q : IQuestion => q.sourceQuestionId.map (fun s => (s, q)))
        ∘ (syncMergeQuestion E))
      = some ∘ (fun tq => (tq._id, syncMergeQuestion E tq)) := by
    funext tq
    simp [Function.comp, syncMergeQuestion_sid]
  rw [hcomp, List.filterMap_eq_map]
  exact jsMapGet_map_pairs T (fun tq => tq._id) (syncMergeQuestion E) k

/-- In a list whose keys are pairwise distinct, the first element with the
key of a member `x` is `x` itself. -/
theorem find?_key_nodup {α : Type} (key : α → Nat) {l : List α}
    (hnd : (l.map key).Nodup) {x : α} (hx : x ∈ l) :
    l.find? (fun z => key z == key x) = some x := by
  induction l with
  | nil => cases hx
  | cons y ys ih =>
    rw [List.map_cons, List.nodup_cons] at hnd
    rcases List.mem_cons.mp hx with rfl | hx'
    · rw [List.find?_cons_of_pos _ (by simp)]
    · by_cases hk : key y = key x
      · exact absurd (hk ▸ List.mem_map_of_mem key hx') hnd.1
      · rw [List.find?_cons_of_neg _ (by simp [hk])]
        exact ih hnd.2 hx'

/-! ## Characterization of the sync-endpoint instance loop -/

/-- The sync loop rewrites exactly the non-skipped instances of the synced
template, elementwise. -/
theorem syncInstances_fst (mode : SyncMode) (t : TemplateDoc) (now : Nat)
    (insts : List Instance) :
    (syncInstances mode t now insts).1
      = insts.map (fun i =>
          if i.templateId = t._id ∧ ¬(mode = SyncMode.safe ∧ i.isCustomized) then
            applySync mode t now i
          else i) := by
  induction insts with
  | nil => rfl
  | cons i rest ih =>
    by_cases h1 : i.templateId = t._id
    · by_cases h2 : mode = SyncMode.safe ∧ i.isCustomized
      · obtain ⟨hm, hc⟩ := h2
        subst hm
        simp [syncInstances, h1, hc, ih]
      · have hcond : i.templateId = t._id ∧ ¬(mode = SyncMode.safe ∧ i.isCustomized) :=
          ⟨h1, h2⟩
        rw [List.map_cons, if_pos hcond]
        simp [syncInstances, h1, h2, ih]
    · have hcond : ¬(i.templateId = t._id ∧ ¬(mode = SyncMode.safe ∧ i.isCustomized)) :=
        fun hc => h1 hc.1
      rw [List.map_cons, if_neg hcond]
      simp [syncInstances, h1, ih]

/-- The sync loop's `skippedCustomized` contribution counts exactly the
customized instances of the synced template (in safe mode). -/
theorem syncInstances_skipped (mode : SyncMode) (t : TemplateDoc) (now : Nat)
    (insts : List Instance) :
    (syncInstances mode t now insts).2.1
      = (insts.filter (fun i =>
          decide (i.templateId = t._id ∧ mode = SyncMode.safe ∧ i.isCustomized))).length := by
  induction insts with
  | nil => rfl
  | cons i rest ih =>
    by_cases h1 : i.templateId = t._id
    · by_cases h2 : mode = SyncMode.safe ∧ i.isCustomized
      · obtain ⟨hm, hc⟩ := h2
        subst hm
        simp [syncInstances, h1, hc, ih]
      · simp [syncInstances, h1, h2, ih]
    · simp [syncInstances, h1, ih]

/-! ## Generic list helpers for the route models -/

/-- Writing back a transformed copy of the element at position `k` leaves any
projection `f` of the list unchanged, provided the transformation preserves
`f`. -/
theorem map_set_getD {α β : Type} (f : α → β) (g : α → α)
    (hg : ∀ x, f (g x) = f x) :
    ∀ (l : List α) (k : Nat) (d : α),
      (l.set k (g (l.getD k d))).map f = l.map f := by
  intro l
  induction l with
  | nil => intro k d; rfl
  | cons x xs ih =>
    intro k d
    cases k with
    | zero => simp [List.getD, hg]
    | succ k' =>
      simp only [List.set, List.map_cons]
      rw [show (x :: xs).getD (k' + 1) d = xs.getD k' d by simp [List.getD]]
      rw [ih k' d]

theorem jsOrStr_empty_iff (x : Option String) :
    jsOrStr x "" = "" ↔ strTruthy x = false := by
  cases x with
  | none => simp [jsOrStr, strTruthy]
  | some s => by_cases hs : s = "" <;> simp [jsOrStr, strTruthy, hs]

/-! ## Claim theorems -/

/-- C1: the sync merge returns the template-derived merged questions in
template order (one per template question, each stamped with that template
question's id), followed by exactly the project-only questions of the
existing instance, unchanged and in their original relative order; and for
every matched question, the merged options are the template-derived options
in template order followed by the matched question's project-only options,
unchanged. -/
theorem claim1_sync_merge_structure (E : List IQuestion) (T : List TQuestion) :
    (mergeTemplateIntoInstanceKeepProjectOnly E T).take T.length
        = T.map (syncMergeQuestion E)
    ∧ ((mergeTemplateIntoInstanceKeepProjectOnly E T).map
          (fun q => q.sourceQuestionId)).take T.length
        = T.map (fun tq => some tq._id)
    ∧ (mergeTemplateIntoInstanceKeepProjectOnly E T).drop T.length
        = E.filter (fun q => q.sourceQuestionId.isNone)
    ∧ (∀ tq ∈ T, ∀ q, syncLookup E tq._id = some q →
        syncMergeQuestion E tq = syncMergeMatched q tq
        ∧ (syncMergeMatched q tq).options.take tq.options.length
            = tq.options.map (syncMergeOption q.options)
        ∧ ((syncMergeMatched q tq).options.map
              (fun o => o.sourceOptionId)).take tq.options.length
            = tq.options.map (fun tOpt => some tOpt._id)
        ∧ (syncMergeMatched q tq).options.drop tq.options.length
            = q.options.filter (fun o => o.sourceOptionId.isNone)) := by
  refine ⟨?_, ?_, ?_, ?_⟩
  · unfold mergeTemplateIntoInstanceKeepProjectOnly
    exact List.take_left' (List.length_map _ _)
  · unfold mergeTemplateIntoInstanceKeepProjectOnly
    rw [List.map_append]
    rw [List.take_left' (by rw [List.length_map, List.length_map])]
    rw [List.map_map]
    exact List.map_congr_left (fun tq _ => syncMergeQuestion_sid E tq)
  · unfold mergeTemplateIntoInstanceKeepProjectOnly
    exact List.drop_left' (List.length_map _ _)
  · intro tq _ q hq
    have hopts : (syncMergeMatched q tq).options
        = tq.options.map (syncMergeOption q.options)
          ++ q.options.filter (fun o => o.sourceOptionId.isNone) := rfl
    refine ⟨by simp [syncMergeQuestion, hq], ?_, ?_, ?_⟩
    · rw [hopts]
      exact List.take_left' (List.length_map _ _)
    · rw [hopts, List.map_append]
      rw [List.take_left' (by rw [List.length_map, List.length_map])]
      rw [List.map_map]
      exact List.map_congr_left (fun tOpt _ => syncMergeOption_sid q.options tOpt)
    · rw [hopts]
      exact List.drop_left' (List.length_map _ _)

theorem claim1_witness :
    (syncMergeMatched qMatchedW1 tqW1).options.drop 2
        = [⟨some 110, none, "My own", ""⟩]
    ∧ (mergeTemplateIntoInstanceKeepProjectOnly existingW1 templateW1).drop 1
        = [⟨some 200, none, "Budget note?", false, []⟩] := by
  have h := claim1_sync_merge_structure existingW1 templateW1
  have h4 := h.2.2.2 tqW1 (by decide) qMatchedW1 (by decide)
  constructor
  · rw [show (2 : Nat) = tqW1.options.length from rfl, h4.2.2.2]
    decide
  · rw [show (1 : Nat) = templateW1.length from rfl, h.2.2.1]
    decide

/-- C4: the assign/update merge returns exactly one output question per
template question, in template order, each stamped with that template
question's id; any existing question not matching some template question —
in particular any project-only question — is absent from the output. -/
theorem claim4_assign_merge_template_authoritative
    (E : List IQuestion) (T : List TQuestion) :
    (mergeInstanceQuestionsKeepingIds E T).map (fun q => q.sourceQuestionId)
        = T.map (fun tq => some tq._id)
    ∧ (mergeInstanceQuestionsKeepingIds E T).length = T.length
    ∧ (∀ q ∈ E, (∀ tq ∈ T, q.sourceQuestionId ≠ some tq._id) →
        q ∉ mergeInstanceQuestionsKeepingIds E T) := by
  refine ⟨?_, ?_, ?_⟩
  · unfold mergeInstanceQuestionsKeepingIds
    rw [List.map_map]
    exact List.map_congr_left (fun tq _ => assignMergeQuestion_sid E tq)
  · unfold mergeInstanceQuestionsKeepingIds
    exact List.length_map _ _
  · intro q _ hnot hmem
    unfold mergeInstanceQuestionsKeepingIds at hmem
    obtain ⟨tq, htq, heq⟩ := List.mem_map.mp hmem
    exact hnot tq htq (heq ▸ assignMergeQuestion_sid E tq)

theorem claim4_witness :
    (⟨some 300, none, "Extra note", false, []⟩ : IQuestion)
      ∉ mergeInstanceQuestionsKeepingIds existingW4 templateW4 :=
  (claim4_assign_merge_template_authoritative existingW4 templateW4).2.2
    _ (by decide) (by decide)

/-- C5 counterexample: with two existing questions both claiming
`sourceQuestionId = 1` and a template holding question 1, both merges return
a single question derived from the *last* duplicate (subdocument id 20); the
first duplicate's content (subdocument id 10) is gone and the duplicates do
not survive as project-only questions (the output length is 1, not 2). -/
theorem claim5_counterexample :
    mergeTemplateIntoInstanceKeepProjectOnly existingC5 templateC5
        = [⟨some 20, some 1, "T", false, []⟩]
    ∧ (mergeTemplateIntoInstanceKeepProjectOnly existingC5 templateC5).length ≠ 2
    ∧ ((mergeTemplateIntoInstanceKeepProjectOnly existingC5 templateC5).all
        (fun q => q.qid != some 10)) = true
    ∧ mergeInstanceQuestionsKeepingIds existingC5 templateC5
        = [⟨some 20, some 1, "T", false, []⟩] := by
  decide

/-- C5 amended: when several existing questions claim the same
`sourceQuestionId`, the **last** of them wins the match (JavaScript `Map`
semantics), in both merge functions; the remaining duplicates are *dropped*
by the sync merge rather than kept as project-only (the output holds exactly
one question per template question plus the questions with *no*
`sourceQuestionId`, and every project-only output question comes from the
existing list). -/
theorem claim5_amended_last_match_wins
    (E : List IQuestion) (T : List TQuestion) (k : Nat) :
    syncLookup E k = E.reverse.find? (fun q => q.sourceQuestionId == some k)
    ∧ assignLookup E k
        = E.reverse.find? (fun q => jsOrId q.sourceQuestionId q.qid == some k)
    ∧ (mergeTemplateIntoInstanceKeepProjectOnly E T).length
        = T.length + (E.filter (fun q => q.sourceQuestionId.isNone)).length
    ∧ (∀ q ∈ mergeTemplateIntoInstanceKeepProjectOnly E T,
        q.sourceQuestionId = none → q ∈ E) := by
  refine ⟨syncLookup_eq_findLast E k, assignLookup_eq_findLast E k, ?_, ?_⟩
  · unfold mergeTemplateIntoInstanceKeepProjectOnly
    rw [List.length_append, List.length_map]
  · intro q hq hnone
    unfold mergeTemplateIntoInstanceKeepProjectOnly at hq
    rcases List.mem_append.mp hq with hl | hr
    · obtain ⟨tq, _, rfl⟩ := List.mem_map.mp hl
      rw [syncMergeQuestion_sid] at hnone
      cases hnone
    · exact (List.mem_filter.mp hr).1

theorem claim5_witness :
    (⟨some 400, none, "Only ours", true, []⟩ : IQuestion) ∈ existingW5 :=
  (claim5_amended_last_match_wins existingW5 [] 0).2.2.2 _ (by decide) rfl

/-- C3 counterexample: the sync merge is *not* idempotent for every template
question list. With two template questions sharing id 1 (the merge assumes
nothing about template id uniqueness), the second pass matches both against
the *last* first-pass output, so the stored option (subdocument id 99) of the
first output question is replaced by a fresh copy, and the two passes
disagree. -/
theorem claim3_counterexample :
    mergeTemplateIntoInstanceKeepProjectOnly
        (mergeTemplateIntoInstanceKeepProjectOnly existingC3 templateC3) templateC3
      ≠ mergeTemplateIntoInstanceKeepProjectOnly existingC3 templateC3 := by
  decide

/-- C3 amended: the sync merge is idempotent whenever the template's question
ids are pairwise distinct (which templates produced by the CRUD endpoints
always satisfy), so running safe sync twice with an unchanged template yields
identical instance question content after the second run as after the
first. -/
theorem claim3_amended_sync_merge_idempotent
    (E : List IQuestion) (T : List TQuestion)
    (h : (T.map (fun tq => tq._id)).Nodup) :
    mergeTemplateIntoInstanceKeepProjectOnly
        (mergeTemplateIntoInstanceKeepProjectOnly E T) T
      = mergeTemplateIntoInstanceKeepProjectOnly E T := by
  have hmap : T.map (syncMergeQuestion (mergeTemplateIntoInstanceKeepProjectOnly E T))
      = T.map (syncMergeQuestion E) := by
    apply List.map_congr_left
    intro tq htq
    have hnd : (T.reverse.map (fun z => z._id)).Nodup := by
      rw [List.map_reverse]
      exact List.nodup_reverse.mpr h
    have hfind : T.reverse.find? (fun z => z._id == tq._id) = some tq :=
      find?_key_nodup (fun z => z._id) hnd (List.mem_reverse.mpr htq)
    have hunfold : syncMergeQuestion (mergeTemplateIntoInstanceKeepProjectOnly E T) tq
        = match syncLookup (mergeTemplateIntoInstanceKeepProjectOnly E T) tq._id with
          | none => freshInstanceQuestion tq
          | some q => syncMergeMatched q tq := rfl
    rw [hunfold, syncLookup_merged, hfind, Option.map_some']
    exact syncMergeQuestion_fix E tq
  have hstep : mergeTemplateIntoInstanceKeepProjectOnly (mergeTemplateIntoInstanceKeepProjectOnly E T) T = T.map (syncMergeQuestion (mergeTemplateIntoInstanceKeepProjectOnly E T)) ++ (mergeTemplateIntoInstanceKeepProjectOnly E T).filter (fun q => q.sourceQuestionId.isNone) := rfl
  rw [hstep, hmap, filter_isNone_merged]
  rfl

theorem claim3_witness :
    mergeTemplateIntoInstanceKeepProjectOnly
        (mergeTemplateIntoInstanceKeepProjectOnly existingW1 templateW1) templateW1
      = mergeTemplateIntoInstanceKeepProjectOnly existingW1 templateW1 :=
  claim3_amended_sync_merge_idempotent existingW1 templateW1 (by decide)

/-- C2: in safe mode the sync loop rewrites exactly the non-customized
instances of the synced template and leaves every customized instance of
that template entirely unchanged (an element-for-element identity, so
questions, options, answers, title, description, roomType, syncedAt and
isCustomized all keep their prior values), counting one `skippedCustomized`
increment per customized matching instance; in force mode every matching
instance is updated and its `isCustomized` flag is reset to `false`. -/
theorem claim2_safe_sync_skips_customized (t : TemplateDoc) (now : Nat)
    (insts : List Instance) :
    (syncInstances SyncMode.safe t now insts).1
        = insts.map (fun i =>
            if i.templateId = t._id ∧ i.isCustomized = false then
              applySync SyncMode.safe t now i
            else i)
    ∧ (syncInstances SyncMode.safe t now insts).2.1
        = (insts.filter (fun i =>
            decide (i.templateId = t._id ∧ i.isCustomized))).length
    ∧ (syncInstances SyncMode.force t now insts).1
        = insts.map (fun i =>
            if i.templateId = t._id then applySync SyncMode.force t now i else i)
    ∧ (∀ i, (applySync SyncMode.force t now i).isCustomized = false)
    ∧ (∀ i, (applySync SyncMode.safe t now i).isCustomized = i.isCustomized) := by
  refine ⟨?_, ?_, ?_, fun i => by simp [applySync], fun i => by simp [applySync]⟩
  · rw [syncInstances_fst]
    apply List.map_congr_left
    intro i _
    by_cases hc : i.isCustomized <;> by_cases h1 : i.templateId = t._id <;>
      simp [h1, hc]
  · rw [syncInstances_skipped]
    congr 1
    apply List.filter_congr
    intro i _
    simp
  · rw [syncInstances_fst]
    apply List.map_congr_left
    intro i _
    by_cases h1 : i.templateId = t._id <;> simp [h1]

/-- C7: `isCustomized` changes only as specified: a direct project edit sets
it to `true`, force sync resets it to `false`, and safe sync (including the
whole per-project loop), the assign/update path and answer saving all leave
it exactly as it was — so it is monotone under safe sync. -/
theorem claim7_isCustomized_transitions :
    (∀ inst title description roomType questions,
        (editInstanceDirectly inst title description roomType questions).isCustomized
          = true)
    ∧ (∀ t now inst, (applySync SyncMode.force t now inst).isCustomized = false)
    ∧ (∀ t now inst, (applySync SyncMode.safe t now inst).isCustomized
          = inst.isCustomized)
    ∧ (∀ t now insts, ((syncInstances SyncMode.safe t now insts).1.map
          (fun i => i.isCustomized)) = insts.map (fun i => i.isCustomized))
    ∧ (∀ t now inst, (assignUpdateInstance t now inst).isCustomized
          = inst.isCustomized)
    ∧ (∀ insts templateId raw out, saveProjectAnswers insts templateId raw = some out →
        out.map (fun i => i.isCustomized) = insts.map (fun i => i.isCustomized)) := by
  refine ⟨fun _ _ _ _ _ => rfl, fun _ _ _ => by simp [applySync],
    fun _ _ _ => by simp [applySync], ?_, fun _ _ _ => rfl, ?_⟩
  · intro t now insts
    rw [syncInstances_fst, List.map_map]
    apply List.map_congr_left
    intro i _
    by_cases hc : i.isCustomized <;> by_cases h1 : i.templateId = t._id <;>
      simp [Function.comp, h1, hc, applySync]
  · intro insts templateId raw out h
    by_cases he : insts.isEmpty
    · simp [saveProjectAnswers, he] at h
    · simp only [saveProjectAnswers, he, Bool.false_eq_true, if_false,
        Option.some.injEq] at h
      rw [← h]
      exact map_set_getD (fun i => i.isCustomized)
        (fun i => { i with answers := processAnswers raw }) (fun _ => rfl)
        insts (answersTargetIdx insts templateId) default

theorem claim7_witness :
    ([({ instanceW7 with answers := [] } : Instance)].map (fun i => i.isCustomized))
      = [instanceW7].map (fun i => i.isCustomized) :=
  claim7_isCustomized_transitions.2.2.2.2.2 [instanceW7] none []
    [{ instanceW7 with answers := [] }] (by decide)

/-- C8: neither merge path rewrites answers: the sync update, the
assign-update and the whole sync loop leave every instance's `answers`
collection unchanged, and the assign endpoint's update branch preserves the
answers of every instance of the project. -/
theorem claim8_answers_never_rewritten_by_merge :
    (∀ mode t now inst, (applySync mode t now inst).answers = inst.answers)
    ∧ (∀ t now inst, (assignUpdateInstance t now inst).answers = inst.answers)
    ∧ (∀ mode t now insts, ((syncInstances mode t now insts).1.map
          (fun i => i.answers)) = insts.map (fun i => i.answers))
    ∧ (∀ insts templateId tpl now out k,
        insts.findIdx? (fun q => q.templateId = tpl._id) = some k →
        assignQuestionnaire insts (some templateId) (some tpl) now
          = AssignResult.success out →
        out.map (fun i => i.answers) = insts.map (fun i => i.answers)) := by
  refine ⟨fun _ _ _ _ => rfl, fun _ _ _ => rfl, ?_, ?_⟩
  · intro mode t now insts
    rw [syncInstances_fst, List.map_map]
    apply List.map_congr_left
    intro i _
    by_cases h1 : i.templateId = t._id <;> by_cases hm : mode = SyncMode.safe <;>
      by_cases hc : i.isCustomized <;> simp [Function.comp, h1, hm, hc, applySync]
  · intro insts templateId tpl now out k hidx h
    simp only [assignQuestionnaire, hidx, AssignResult.success.injEq] at h
    rw [← h]
    exact map_set_getD (fun i => i.answers) (assignUpdateInstance tpl now)
      (fun x => (rfl : (assignUpdateInstance tpl now x).answers = x.answers))
      insts k default

theorem claim8_witness :
    ([assignUpdateInstance templateDocW8 5 instanceW7].map (fun i => i.answers))
      = [instanceW7].map (fun i => i.answers) :=
  claim8_answers_never_rewritten_by_merge.2.2.2 [instanceW7] 9 templateDocW8 5
    [assignUpdateInstance templateDocW8 5 instanceW7] 0 (by decide) rfl

/-- C6 counterexample: the answers endpoint persists a submitted selection
whose `optionId` ("999") corresponds to *no* option genuinely present on the
instance question (neither a subdocument id nor a source option id of any
option of `instanceC6` is 999): the endpoint never consults the instance's
questions, so stale selections are **not** dropped. -/
theorem claim6_counterexample :
    saveProjectAnswers [instanceC6] (some 5) rawC6
        = some [{ instanceC6 with
            answers := [⟨"1", "Style?", [⟨"999", "Ghost", ""⟩], ""⟩] }]
    ∧ (instanceC6.questions.all (fun q => q.options.all
        (fun o => (o.oid != some 999) && (o.sourceOptionId != some 999)))) = true := by
  decide

/-- C6 amended: the persisted selected options of each kept answer are
exactly **all** the submitted selections, normalized, with no filtering
against the options present on the instance question (the endpoint never
reads the questions); what does hold is the second half of the claim: every
submitted answer with no free text and no selections is omitted entirely
from the persisted answers list. -/
theorem claim6_amended_selections_kept_verbatim (raw : List (Option RawAnswer)) :
    ((processAnswers raw).map (fun a => a.selectedOptions.map (fun o => o.optionId)))
        = raw.filterMap (fun a? => a?.bind (fun a =>
            if keepAnswer a then some (submittedSelIds a) else none))
    ∧ (∀ a ∈ processAnswers raw, a.freeText = "" → a.selectedOptions ≠ []) := by
  constructor
  · unfold processAnswers
    rw [List.map_filterMap]
    have hfun : ∀ a? : Option RawAnswer,
        Option.map (fun a : AnswerRec => a.selectedOptions.map (fun o => o.optionId))
            (a?.bind (fun a => if keepAnswer a then some (normalizeAnswer a) else none))
          = a?.bind (fun a => if keepAnswer a then some (submittedSelIds a) else none) := by
      intro a?
      cases a? with
      | none => rfl
      | some a =>
        by_cases hk : keepAnswer a
        · cases hsel : a.selectedOptions with
          | none =>
            simp [hk, normalizeAnswer, submittedSelIds, hsel]
          | some l =>
            simp [hk, normalizeAnswer, submittedSelIds, hsel, normalizeSelected,
              List.map_map, Function.comp]
        · simp [hk]
    exact congrFun (congrArg List.filterMap (funext hfun)) raw
  · intro a ha hft
    unfold processAnswers at ha
    obtain ⟨a?, _, hsome⟩ := List.mem_filterMap.mp ha
    cases a? with
    | none => simp at hsome
    | some a0 =>
      by_cases hk : keepAnswer a0
      · simp only [Option.some_bind, hk, if_true, Option.some.injEq] at hsome
        subst hsome
        have hft' : strTruthy a0.freeText = false := by
          have : jsOrStr a0.freeText "" = "" := hft
          exact (jsOrStr_empty_iff a0.freeText).mp this
        unfold keepAnswer at hk
        rw [hft', Bool.false_or] at hk
        cases hsel : a0.selectedOptions with
        | none => rw [hsel] at hk; cases hk
        | some l =>
          rw [hsel] at hk
          have hl : l ≠ [] := by
            intro hnil
            rw [hnil] at hk
            cases hk
          have : (normalizeAnswer a0).selectedOptions = l.map normalizeSelected := by
            simp [normalizeAnswer, hsel]
          rw [this]
          simpa using hl
      · simp [hk] at hsome

theorem claim6_witness :
    (⟨"q", "", [⟨"5", "", ""⟩], ""⟩ : AnswerRec).selectedOptions ≠ [] :=
  (claim6_amended_selections_kept_verbatim rawW6).2 _ (by decide) rfl

/-- C9: calling the assign endpoint with a missing/falsy `templateId` is not
an error: it empties the project's whole `designQuestionnaires` array
(instances of *every* template are removed) and returns the project as
success, before the template is even looked up. -/
theorem claim9_falsy_templateId_clears_all (insts : List Instance)
    (storedTemplate : Option TemplateDoc) (now : Nat) :
    assignQuestionnaire insts none storedTemplate now = AssignResult.success [] :=
  rfl

/-- C10: when the submitted `templateId` matches no instance of the project
(but at least one instance exists), the answers are written to the *first*
instance of the array, and its whole `answers` list is replaced by the
filtered submitted list (the previous answers do not survive). -/
theorem claim10_answers_fallback_first_instance (i0 : Instance)
    (rest : List Instance) (tid : Nat) (raw : List (Option RawAnswer))
    (h : ∀ i ∈ i0 :: rest, i.templateId ≠ tid) :
    saveProjectAnswers (i0 :: rest) (some tid) raw
      = some ({ i0 with answers := processAnswers raw } :: rest) := by
  have hidx : answersTargetIdx (i0 :: rest) (some tid) = 0 := by
    unfold answersTargetIdx
    rw [List.findIdx?_eq_none_iff.mpr ?_]
    · rfl
    · intro x hx
      simpa using h x hx
  simp only [saveProjectAnswers, hidx]
  rfl

theorem claim10_witness :
    saveProjectAnswers [instanceW10] (some 4) []
      = some [{ instanceW10 with answers := [] }] :=
  claim10_answers_fallback_first_instance instanceW10 [] 4 [] (by decide)

end QSync
